import Mathlib

/-!
Verification of the room-booking conflict checker and real-time sync layer
of the `ragpipeline` repository (`csis-backend/conflictChecker.js`,
`csis-backend/server.js`, `useRealtimeBookings.js`).

The JavaScript code is shallowly embedded: JS values that flow through the
validator are modelled by the inductive `JSVal` (with NaN kept distinct from
other numbers); code that can throw a `TypeError` (calling `.split` on a
non-string) returns `Except JsErr`; the asynchronous Supabase query result
is passed to the validator as an `Except String (List BookingRec)` argument
(error message or rows), and the query's filter chain
(`.eq room .eq date .neq status Rejected`) is modelled by `queryNonRejected`.
`Number(x)` string coercion is modelled on the fragment exercised by the
program: optional whitespace, optional sign, decimal digits; all other
numeric spellings are mapped to NaN.
-/

/-- A JavaScript value as it appears in the booking pipeline.  `obj` is a
non-primitive value carrying its `ToPrimitive` (string) coercion. -/
inductive JSVal where
  | undef : JSVal
  | null : JSVal
  | bool : Bool → JSVal
  | num : Int → JSVal
  | nan : JSVal
  | str : String → JSVal
  | obj : String → JSVal
deriving DecidableEq, Repr

/-- The only exception the embedded code can raise: calling `.split` on a
truthy non-string value. -/
inductive JsErr where
  | typeError : JsErr
deriving DecidableEq, Repr

deriving instance DecidableEq for Except

/-- JavaScript truthiness (`!x` negates this). -/
def truthy : JSVal → Bool
  | .undef => false
  | .null => false
  | .bool b => b
  | .num n => !(n == 0)
  | .nan => false
  | .str s => !s.data.isEmpty
  | .obj _ => true

/-- `String.prototype.split` on a single separator character
(`"".split(c) = [""]`, like JS). -/
def splitOnChar (sep : Char) : List Char → List (List Char)
  | [] => [[]]
  | c :: cs =>
    if c == sep then [] :: splitOnChar sep cs
    else
      match splitOnChar sep cs with
      | [] => [[c]]
      | g :: gs => (c :: g) :: gs

def isDigitChar (c : Char) : Bool := 48 ≤ c.toNat && c.toNat ≤ 57

def digitVal (c : Char) : Nat := c.toNat - 48

def digitsToNat (cs : List Char) : Nat :=
  cs.foldl (fun a c => 10 * a + digitVal c) 0

/-- JS `Number(string)` on the decimal-integer fragment: trims whitespace,
`""` is `0`, optional sign followed by digits; every other spelling is NaN. -/
def jsNumberChars (cs : List Char) : JSVal :=
  let t := ((cs.dropWhile Char.isWhitespace).reverse.dropWhile Char.isWhitespace).reverse
  match t with
  | [] => .num 0
  | '+' :: ds => if !ds.isEmpty && ds.all isDigitChar then .num (digitsToNat ds) else .nan
  | '-' :: ds => if !ds.isEmpty && ds.all isDigitChar then .num (-(digitsToNat ds : Int)) else .nan
  | ds => if ds.all isDigitChar then .num (digitsToNat ds) else .nan

/-- `h * 60 + m` in JS arithmetic on the two mapped split groups
(NaN propagates). -/
def combineHM : JSVal → JSVal → JSVal
  | .num h, .num m => .num (h * 60 + m)
  | _, _ => .nan

/-- Body of `toMinutes` after the falsiness guard:
`timeStr.split(':').map(Number)` destructured into `[h, m]`, then
`h * 60 + m`.  A missing second group destructures to `undefined`, so the
sum is NaN. -/
def toMinutesCore (cs : List Char) : JSVal :=
  match (splitOnChar ':' cs).map jsNumberChars with
  | h :: m :: _ => combineHM h m
  | _ => .nan

/-- `toMinutes` restricted to string input (the falsy string is `""`). -/
def toMinutesStr (s : String) : JSVal :=
  if s.data.isEmpty then .null else toMinutesCore s.data

/-- `toMinutes(timeStr)` from `conflictChecker.js`: falsy input returns
`null`; a truthy string is parsed; a truthy non-string throws a `TypeError`
at `timeStr.split(':')`. -/
def toMinutesV (v : JSVal) : Except JsErr JSVal :=
  if truthy v then
    match v with
    | .str s => .ok (toMinutesStr s)
    | _ => .error .typeError
  else .ok .null

/-- Lexicographic order on char lists by code point (JS string `<`). -/
def strLt : List Char → List Char → Bool
  | [], [] => false
  | [], _ :: _ => true
  | _ :: _, [] => false
  | a :: as, b :: bs =>
    if a.toNat < b.toNat then true
    else if b.toNat < a.toNat then false
    else strLt as bs

/-- `ToPrimitive` for the values in play: objects coerce to their string. -/
def toPrim : JSVal → JSVal
  | .obj s => .str s
  | v => v

/-- `ToNumber` (`none` is NaN). -/
def toNumberOpt : JSVal → Option Int
  | .undef => none
  | .null => some 0
  | .bool b => some (if b then 1 else 0)
  | .num n => some n
  | .nan => none
  | .str s => match jsNumberChars s.data with | .num n => some n | _ => none
  | .obj s => match jsNumberChars s.data with | .num n => some n | _ => none

/-- JS `a < b`: string comparison when both primitives are strings,
numeric comparison otherwise, false whenever a side is NaN. -/
def jslt (a b : JSVal) : Bool :=
  match toPrim a, toPrim b with
  | .str x, .str y => strLt x.data y.data
  | x, y =>
    match toNumberOpt x, toNumberOpt y with
    | some m, some n => decide (m < n)
    | _, _ => false

/-- JS `a > b` is `b < a` with the same NaN rule. -/
def jsGt (a b : JSVal) : Bool := jslt b a

/-- JS `a >= b`: negation of `<` except that NaN makes it false. -/
def jsGe (a b : JSVal) : Bool :=
  match toPrim a, toPrim b with
  | .str x, .str y => !strLt x.data y.data
  | x, y =>
    match toNumberOpt x, toNumberOpt y with
    | some m, some n => decide (n ≤ m)
    | _, _ => false

/-- JS `a - b` (`ToNumber` both sides, NaN propagates). -/
def jsSub (a b : JSVal) : JSVal :=
  match toNumberOpt a, toNumberOpt b with
  | some m, some n => .num (m - n)
  | _, _ => .nan

/-- `timesOverlap(startA, endA, startB, endB)` from `conflictChecker.js`:
parse all four bounds (in source order), return false if any parsed to
`null`, otherwise `s1 < e2 && s2 < e1`. -/
def timesOverlapV (sa ea sb eb : JSVal) : Except JsErr Bool := do
  let s1 ← toMinutesV sa
  let e1 ← toMinutesV ea
  let s2 ← toMinutesV sb
  let e2 ← toMinutesV eb
  pure (if s1 = JSVal.null ∨ e1 = JSVal.null ∨ s2 = JSVal.null ∨ e2 = JSVal.null
        then false
        else jslt s1 e2 && jslt s2 e1)

/-- A stored booking row, as selected by the conflict query
(`booking_id, room_number, start_date, start_time, end_time, status,
owner_role`). -/
structure BookingRec where
  booking_id : String
  room_number : String
  start_date : String
  start_time : String
  end_time : String
  status : String
  owner_role : String
deriving DecidableEq, Repr

/-- The proposal destructured at the top of `checkBookingConflict`; its
fields come from parsed model output, so each may be any JS value. -/
structure Proposal where
  room_number : JSVal
  start_date : JSVal
  start_time : JSVal
  end_time : JSVal
deriving DecidableEq, Repr

/-- One entry of `result.conflicts` (`time` is the
`start_time–end_time` template string). -/
structure ConflictEntry where
  booking_id : String
  room_number : String
  date : String
  time : String
  status : String
  held_by : String
deriving DecidableEq, Repr

/-- One entry of `result.reasons`, abstracted to the rule that produced it
together with the values it interpolates (the source builds an English
sentence from exactly these values). -/
inductive Reason where
  | missingFields : Reason
  | invalidTimeRange (startTime endTime : JSVal) : Reason
  | pastDate (date : JSVal) (today : String) : Reason
  | outsideOperatingHours (startTime endTime : JSVal) : Reason
  | tooLong (durationMins : JSVal) : Reason
  | dbError (msg : String) : Reason
  | conflictsWith (room date : JSVal) (bookingId startTime endTime status : String) : Reason
deriving DecidableEq, Repr

/-- The `{ valid, conflicts, reasons }` result object. -/
structure CheckResult where
  valid : Bool
  conflicts : List ConflictEntry
  reasons : List Reason
deriving DecidableEq, Repr

/-- The `for (const bk of existing)` loop: each overlapping row appends one
conflict entry and one reason and forces `valid := false`. -/
def conflictLoop (room date st et : JSVal) :
    List BookingRec → CheckResult → Except JsErr CheckResult
  | [], acc => .ok acc
  | bk :: rest, acc => do
    let ov ← timesOverlapV st et (.str bk.start_time) (.str bk.end_time)
    if ov then
      conflictLoop room date st et rest
        { valid := false
          conflicts := acc.conflicts ++
            [⟨bk.booking_id, bk.room_number, bk.start_date,
              bk.start_time ++ "–" ++ bk.end_time, bk.status, bk.owner_role⟩]
          reasons := acc.reasons ++
            [.conflictsWith room date bk.booking_id bk.start_time bk.end_time bk.status] }
    else conflictLoop room date st et rest acc

/-- `checkBookingConflict(supabase, proposed)`.  `today` stands for
`new Date().toISOString().split('T')[0]` and `db` for the awaited query
result (`error` is a failed fetch, `ok` the returned rows).  The source
re-computes `toMinutes(start_time)`/`toMinutes(end_time)` at rules 4 and 5;
`toMinutesV` is pure, so binding the two values once is the same. -/
def checkBookingConflict (today : String) (db : Except String (List BookingRec))
    (p : Proposal) : Except JsErr CheckResult :=
  if !truthy p.room_number || !truthy p.start_date
      || !truthy p.start_time || !truthy p.end_time then
    .ok ⟨false, [], [.missingFields]⟩
  else
    match toMinutesV p.start_time with
    | .error e => .error e
    | .ok sm =>
      match toMinutesV p.end_time with
      | .error e => .error e
      | .ok em =>
        if jsGe sm em then
          .ok ⟨false, [], [.invalidTimeRange p.start_time p.end_time]⟩
        else if jslt p.start_date (.str today) then
          .ok ⟨false, [], [.pastDate p.start_date today]⟩
        else if jslt sm (toMinutesStr "07:00") || jsGt em (toMinutesStr "22:00") then
            .ok ⟨false, [], [.outsideOperatingHours p.start_time p.end_time]⟩
          else if jsGt (jsSub em sm) (.num 240) then
            .ok ⟨false, [], [.tooLong (jsSub em sm)]⟩
          else
            match db with
            | .error msg => .ok ⟨false, [], [.dbError msg]⟩
            | .ok existing =>
              conflictLoop p.room_number p.start_date p.start_time p.end_time
                existing ⟨true, [], []⟩

/-- Supabase `.eq` filter parameter against a text column: only a string
parameter equal to the stored text matches. -/
def jeqParam (v : JSVal) (s : String) : Bool :=
  match v with
  | .str t => t == s
  | _ => false

/-- The conflict query
`.eq('room_number', room).eq('start_date', date).neq('status', 'Rejected')`
evaluated against a table of rows. -/
def queryNonRejected (table : List BookingRec) (room date : JSVal) : List BookingRec :=
  table.filter fun b =>
    jeqParam room b.room_number && jeqParam date b.start_date && !(b.status == "Rejected")

/-- `checkBookingConflict` run against a table through the conflict query. -/
def checkWithStore (today : String) (table : List BookingRec) (p : Proposal) :
    Except JsErr CheckResult :=
  checkBookingConflict today (.ok (queryNonRejected table p.room_number p.start_date)) p

/-- The proposal the final DB gate passes for a write request whose fields
are strings. -/
def strProposal (w : BookingRec) : Proposal :=
  ⟨.str w.room_number, .str w.start_date, .str w.start_time, .str w.end_time⟩

/-- One iteration of the `/api/chat` STEP 6 write loop: run the final
`checkBookingConflict` gate against the current table and insert the record
only when the result is valid (an invalid result is silently skipped). -/
def stepWrite (today : String) (table : List BookingRec) (w : BookingRec) :
    List BookingRec :=
  match checkWithStore today table (strProposal w) with
  | .ok r => if r.valid then w :: table else table
  | .error _ => table

/-- The whole sequence of gated writes. -/
def applyWrites (today : String) (table : List BookingRec) (ws : List BookingRec) :
    List BookingRec :=
  ws.foldl (stepWrite today) table

/-- A booking counts against the overlap invariant iff its status is
`Pending` or `Approved`. -/
def activeStatus (b : BookingRec) : Prop :=
  b.status = "Pending" ∨ b.status = "Approved"

/-- The `[startTime, endTime)` minute intervals of two bookings overlap:
all four bounds parse to minute counts and the half-open intervals
intersect (strictly, so touching endpoints do not overlap). -/
def minuteOverlap (b1 b2 : BookingRec) : Prop :=
  ∃ s1 e1 s2 e2 : Int,
    toMinutesStr b1.start_time = .num s1 ∧ toMinutesStr b1.end_time = .num e1 ∧
    toMinutesStr b2.start_time = .num s2 ∧ toMinutesStr b2.end_time = .num e2 ∧
    s1 < e2 ∧ s2 < e1

/-- Two bookings are compatible: if both are Pending/Approved and share a
room and date, their minute intervals do not overlap. -/
def bookingCompat (b1 b2 : BookingRec) : Prop :=
  activeStatus b1 → activeStatus b2 →
  b1.room_number = b2.room_number → b1.start_date = b2.start_date →
  ¬ minuteOverlap b1 b2

/-- The booking-set invariant of the spec: pairwise compatibility. -/
def NoOverlapInvariant (table : List BookingRec) : Prop :=
  table.Pairwise bookingCompat

/-- Client-side reducer state: the bookings list and the date-keyed
schedule map (a JS object modelled as an association list). -/
structure ClientState where
  bookings : List BookingRec
  schedule : List (String × List BookingRec)
deriving DecidableEq, Repr

/-- `prev[date]` on the schedule object: the value at the first matching
key, if any. -/
def schedGet : List (String × List BookingRec) → String → Option (List BookingRec)
  | [], _ => none
  | kv :: rest, d => if kv.1 == d then some kv.2 else schedGet rest d

/-- `{ ...prev, [date]: l }`: replace the value at an existing key,
otherwise add the key at the end. -/
def schedSet : List (String × List BookingRec) → String → List BookingRec →
    List (String × List BookingRec)
  | [], d, l => [(d, l)]
  | kv :: rest, d, l => if kv.1 == d then (d, l) :: rest else kv :: schedSet rest d l

/-- The `INSERT` branch of `applySSEEvent` in `useRealtimeBookings.js`:
prepend to the bookings list unless the id is already present; if the
record's `start_date` is truthy and its status is not `Rejected`, append it
to the date bucket unless the id is already there. -/
def applyInsertEvent (s : ClientState) (r : BookingRec) : ClientState :=
  let bookings' :=
    if s.bookings.any fun b => b.booking_id == r.booking_id then s.bookings
    else r :: s.bookings
  let schedule' :=
    if !(r.start_date == "") && !(r.status == "Rejected") then
      let existing := (schedGet s.schedule r.start_date).getD []
      if existing.any fun b => b.booking_id == r.booking_id then s.schedule
      else schedSet s.schedule r.start_date (existing ++ [r])
    else s.schedule
  ⟨bookings', schedule'⟩

/-- `broadcastToClients` over the channel registry: collect the channels
whose write fails into `dead`, then delete each of them from the registry.
Channels are named by numbers; `writeOk c` says whether `c.write` succeeds. -/
def broadcastToClients (writeOk : Nat → Bool) (clients : List Nat) : List Nat :=
  let dead := clients.filter fun c => !writeOk c
  clients.filter fun c => !dead.contains c

/-- One firing of the per-connection 25-second heartbeat interval for
channel `c`: if the interval is still active and the write fails, the
`catch` block clears the interval — and does nothing else.  Returns the new
interval-active flag and the (unchanged) channel registry. -/
def heartbeatTick (writeOk : Nat → Bool) (c : Nat) (hbActive : Bool)
    (clients : List Nat) : Bool × List Nat :=
  if hbActive then
    if writeOk c then (true, clients) else (false, clients)
  else (false, clients)

/-- The decimal digit character for `n ≤ 9`. -/
def digitChar : Nat → Char
  | 0 => '0' | 1 => '1' | 2 => '2' | 3 => '3' | 4 => '4'
  | 5 => '5' | 6 => '6' | 7 => '7' | 8 => '8' | _ => '9'

/-- Two-digit zero-padded rendering of `n < 100`. -/
def pad2 (n : Nat) : List Char :=
  if n < 10 then ['0', digitChar n] else [digitChar (n / 10), digitChar (n % 10)]

/-- The canonical well-formed `"HH:MM"` string for an hour and minute. -/
def fmtHHMM (h m : Nat) : String := ⟨pad2 h ++ ':' :: pad2 m⟩

example : toMinutesStr "09:30" = .num 570 := by decide
example : toMinutesStr "abc" = .nan := by decide
example : toMinutesStr "" = .null := by decide
example : toMinutesStr "12" = .nan := by decide
example : timesOverlapV (.str "09:00") (.str "10:00") (.str "10:00") (.str "11:00") = .ok false := by decide
example : timesOverlapV (.str "09:00") (.str "11:00") (.str "10:00") (.str "12:00") = .ok true := by decide
example : toMinutesV (.num 930) = .error .typeError := by decide

def exBooking : BookingRec :=
  ⟨"BK-EX1", "CSIS-101", "2026-03-05", "09:00", "11:00", "Approved", "teacher"⟩

example :
    checkBookingConflict "2026-01-01" (.ok [])
      ⟨.str "CSIS-101", .str "2026-03-05", .str "09:00", .str "11:00"⟩ =
    .ok ⟨true, [], []⟩ := by decide

example :
    (checkBookingConflict "2026-01-01" (.ok [exBooking])
      ⟨.str "CSIS-101", .str "2026-03-05", .str "10:00", .str "12:00"⟩).map
        (fun r => (r.valid, r.conflicts.length)) = .ok (false, 1) := by decide

example :
    checkBookingConflict "2026-01-01" (.ok [exBooking])
      ⟨.str "CSIS-101", .str "2026-03-05", .str "11:00", .str "13:00"⟩ =
    .ok ⟨true, [], []⟩ := by decide

example :
    checkBookingConflict "2026-01-01" (.ok [])
      ⟨.str "CSIS-101", .str "2026-03-05", .str "23:00", .str "23:30"⟩ =
    .ok ⟨false, [], [.outsideOperatingHours (.str "23:00") (.str "23:30")]⟩ := by decide

example :
    checkBookingConflict "2026-01-01" (.ok [])
      ⟨.str "CSIS-101", .str "2025-03-05", .str "09:00", .str "11:00"⟩ =
    .ok ⟨false, [], [.pastDate (.str "2025-03-05") "2026-01-01"]⟩ := by decide

example :
    checkBookingConflict "2026-01-01" (.ok [])
      ⟨.str "CSIS-101", .str "2026-03-05", .num 930, .str "11:00"⟩ =
    .error .typeError := by decide

example :
    checkBookingConflict "2026-01-01" (.ok [])
      ⟨.str "CSIS-101", .str "2026-03-05", .str "ab:cd", .str "ef:gh"⟩ =
    .ok ⟨true, [], []⟩ := by decide

/-! ### Helper lemmas -/

theorem exceptOkBind {α β : Type} (x : α) (f : α → Except JsErr β) :
    (Except.ok x >>= f) = f x := rfl

theorem exceptErrBind {α β : Type} (e : JsErr) (f : α → Except JsErr β) :
    ((Except.error e : Except JsErr α) >>= f) = Except.error e := rfl

theorem toMinutesV_str (s : String) : toMinutesV (.str s) = .ok (toMinutesStr s) := by
  by_cases h : s.data.isEmpty
  · simp [toMinutesV, truthy, toMinutesStr, h]
  · simp [toMinutesV, truthy, toMinutesStr, h]

theorem toMinutesCore_ne_null (cs : List Char) : toMinutesCore cs ≠ .null := by
  unfold toMinutesCore
  cases h : (splitOnChar ':' cs).map jsNumberChars with
  | nil => simp
  | cons x t =>
    cases t with
    | nil => simp
    | cons y t' =>
      cases x <;> cases y <;> simp [combineHM]

theorem toMinutesStr_cases (s : String) :
    toMinutesStr s = .null ∨ (∃ n : Int, toMinutesStr s = .num n) ∨ toMinutesStr s = .nan := by
  unfold toMinutesStr
  by_cases h : s.data.isEmpty
  · simp [h]
  · simp only [h, if_neg]
    unfold toMinutesCore
    cases hm : (splitOnChar ':' s.data).map jsNumberChars with
    | nil => simp
    | cons x t =>
      cases t with
      | nil => simp
      | cons y t' => cases x <;> cases y <;> simp [combineHM]

theorem timesOverlapV_str (a b c d : String) :
    timesOverlapV (.str a) (.str b) (.str c) (.str d) =
      .ok (if toMinutesStr a = JSVal.null ∨ toMinutesStr b = JSVal.null
              ∨ toMinutesStr c = JSVal.null ∨ toMinutesStr d = JSVal.null then false
           else jslt (toMinutesStr a) (toMinutesStr d)
                  && jslt (toMinutesStr c) (toMinutesStr b)) := by
  simp only [timesOverlapV, toMinutesV_str, exceptOkBind]
  rfl

/-- Core characterisation of the overlap test on string bounds, shared by
the claims about `timesOverlap` and the invariant proof. -/
theorem timesOverlap_core_iff (a b c d : String) :
    (timesOverlapV (.str a) (.str b) (.str c) (.str d) = .ok true ↔
      ∃ s1 e1 s2 e2 : Int,
        toMinutesStr a = .num s1 ∧ toMinutesStr b = .num e1 ∧
        toMinutesStr c = .num s2 ∧ toMinutesStr d = .num e2 ∧
        s1 < e2 ∧ s2 < e1) ∧
    ((toMinutesStr a = .null ∨ toMinutesStr b = .null ∨
      toMinutesStr c = .null ∨ toMinutesStr d = .null) →
      timesOverlapV (.str a) (.str b) (.str c) (.str d) = .ok false) := by
  rw [timesOverlapV_str]
  rcases toMinutesStr_cases a with ha | ⟨n1, ha⟩ | ha <;>
    rcases toMinutesStr_cases b with hb | ⟨n2, hb⟩ | hb <;>
    rcases toMinutesStr_cases c with hc | ⟨n3, hc⟩ | hc <;>
    rcases toMinutesStr_cases d with hd | ⟨n4, hd⟩ | hd <;>
    simp [ha, hb, hc, hd, jslt, toPrim, toNumberOpt, and_assoc]

theorem conflictLoop_valid_mono (room date st et : JSVal) :
    ∀ (ex : List BookingRec) (acc r : CheckResult),
      conflictLoop room date st et ex acc = .ok r → r.valid = true → acc.valid = true := by
  intro ex
  induction ex with
  | nil =>
    intro acc r h hv
    unfold conflictLoop at h
    cases h
    exact hv
  | cons bk rest ih =>
    intro acc r h hv
    unfold conflictLoop at h
    cases hov : timesOverlapV st et (.str bk.start_time) (.str bk.end_time) with
    | error e =>
      rw [hov, exceptErrBind] at h
      cases h
    | ok b =>
      rw [hov, exceptOkBind] at h
      cases b with
      | false => exact ih acc r h hv
      | true =>
        have := ih _ r h hv
        simp at this

theorem conflictLoop_no_overlap (room date st et : JSVal) :
    ∀ (ex : List BookingRec) (acc r : CheckResult),
      conflictLoop room date st et ex acc = .ok r → r.valid = true →
      ∀ bk ∈ ex, timesOverlapV st et (.str bk.start_time) (.str bk.end_time) = .ok false := by
  intro ex
  induction ex with
  | nil =>
    intro acc r h hv bk hbk
    simp at hbk
  | cons bk0 rest ih =>
    intro acc r h hv bk hbk
    unfold conflictLoop at h
    cases hov : timesOverlapV st et (.str bk0.start_time) (.str bk0.end_time) with
    | error e =>
      rw [hov, exceptErrBind] at h
      cases h
    | ok b =>
      rw [hov, exceptOkBind] at h
      cases b with
      | false =>
        rcases List.mem_cons.mp hbk with hEq | hMem
        · rw [hEq]; exact hov
        · exact ih acc r h hv bk hMem
      | true =>
        have := conflictLoop_valid_mono room date st et rest _ r h hv
        simp at this

theorem conflictLoop_props (room date st et : JSVal) :
    ∀ (ex : List BookingRec) (acc r : CheckResult),
      conflictLoop room date st et ex acc = .ok r →
      (acc.valid = true ↔ acc.reasons = []) → (acc.valid = true → acc.conflicts = []) →
      ((r.valid = true ↔ r.reasons = []) ∧ (r.valid = true → r.conflicts = [])) := by
  intro ex
  induction ex with
  | nil =>
    intro acc r h h1 h2
    unfold conflictLoop at h
    cases h
    exact ⟨h1, h2⟩
  | cons bk0 rest ih =>
    intro acc r h h1 h2
    unfold conflictLoop at h
    cases hov : timesOverlapV st et (.str bk0.start_time) (.str bk0.end_time) with
    | error e =>
      rw [hov, exceptErrBind] at h
      cases h
    | ok b =>
      rw [hov, exceptOkBind] at h
      cases b with
      | false => exact ih acc r h h1 h2
      | true =>
        refine ih _ r h ?_ ?_ <;> simp

theorem conflictLoop_ok_of_str (room date : JSVal) (a b : String) :
    ∀ (ex : List BookingRec) (acc : CheckResult),
      ∃ r, conflictLoop room date (.str a) (.str b) ex acc = .ok r := by
  intro ex
  induction ex with
  | nil =>
    intro acc
    exact ⟨acc, rfl⟩
  | cons bk0 rest ih =>
    intro acc
    unfold conflictLoop
    rw [timesOverlapV_str, exceptOkBind]
    split
    · exact ih _
    · split
      · exact ih _
      · exact ih acc

theorem rule1_fields (p : Proposal)
    (h1 : (!truthy p.room_number || !truthy p.start_date
          || !truthy p.start_time || !truthy p.end_time) = false) :
    truthy p.room_number = true ∧ truthy p.start_date = true ∧
    truthy p.start_time = true ∧ truthy p.end_time = true := by
  simpa [and_assoc] using h1

theorem check_r1 (today : String) (db : Except String (List BookingRec)) (p : Proposal)
    (h1 : (!truthy p.room_number || !truthy p.start_date
          || !truthy p.start_time || !truthy p.end_time) = true) :
    checkBookingConflict today db p = .ok ⟨false, [], [.missingFields]⟩ := by
  simp [checkBookingConflict, h1]

theorem check_r2 (today : String) (db : Except String (List BookingRec)) (p : Proposal)
    (st et : String) (hst : p.start_time = .str st) (het : p.end_time = .str et)
    (h1 : (!truthy p.room_number || !truthy p.start_date
          || !truthy p.start_time || !truthy p.end_time) = false)
    (h2 : jsGe (toMinutesStr st) (toMinutesStr et) = true) :
    checkBookingConflict today db p =
      .ok ⟨false, [], [.invalidTimeRange (.str st) (.str et)]⟩ := by
  obtain ⟨hr, hd, hs, he⟩ := rule1_fields p h1
  rw [hst] at hs; rw [het] at he
  simp [checkBookingConflict, hst, het, toMinutesV_str, hr, hd, hs, he, h2]

theorem check_r3 (today : String) (db : Except String (List BookingRec)) (p : Proposal)
    (st et : String) (hst : p.start_time = .str st) (het : p.end_time = .str et)
    (h1 : (!truthy p.room_number || !truthy p.start_date
          || !truthy p.start_time || !truthy p.end_time) = false)
    (h2 : jsGe (toMinutesStr st) (toMinutesStr et) = false)
    (h3 : jslt p.start_date (.str today) = true) :
    checkBookingConflict today db p =
      .ok ⟨false, [], [.pastDate p.start_date today]⟩ := by
  obtain ⟨hr, hd, hs, he⟩ := rule1_fields p h1
  rw [hst] at hs; rw [het] at he
  simp [checkBookingConflict, hst, het, toMinutesV_str, hr, hd, hs, he, h2, h3]

theorem check_r4 (today : String) (db : Except String (List BookingRec)) (p : Proposal)
    (st et : String) (hst : p.start_time = .str st) (het : p.end_time = .str et)
    (h1 : (!truthy p.room_number || !truthy p.start_date
          || !truthy p.start_time || !truthy p.end_time) = false)
    (h2 : jsGe (toMinutesStr st) (toMinutesStr et) = false)
    (h3 : jslt p.start_date (.str today) = false)
    (h4 : (jslt (toMinutesStr st) (toMinutesStr "07:00")
          || jsGt (toMinutesStr et) (toMinutesStr "22:00")) = true) :
    checkBookingConflict today db p =
      .ok ⟨false, [], [.outsideOperatingHours (.str st) (.str et)]⟩ := by
  obtain ⟨hr, hd, hs, he⟩ := rule1_fields p h1
  rw [hst] at hs; rw [het] at he
  simp [checkBookingConflict, hst, het, toMinutesV_str, hr, hd, hs, he, h2, h3, h4]

theorem check_r5 (today : String) (db : Except String (List BookingRec)) (p : Proposal)
    (st et : String) (hst : p.start_time = .str st) (het : p.end_time = .str et)
    (h1 : (!truthy p.room_number || !truthy p.start_date
          || !truthy p.start_time || !truthy p.end_time) = false)
    (h2 : jsGe (toMinutesStr st) (toMinutesStr et) = false)
    (h3 : jslt p.start_date (.str today) = false)
    (h4 : (jslt (toMinutesStr st) (toMinutesStr "07:00")
          || jsGt (toMinutesStr et) (toMinutesStr "22:00")) = false)
    (h5 : jsGt (jsSub (toMinutesStr et) (toMinutesStr st)) (.num 240) = true) :
    checkBookingConflict today db p =
      .ok ⟨false, [], [.tooLong (jsSub (toMinutesStr et) (toMinutesStr st))]⟩ := by
  obtain ⟨hr, hd, hs, he⟩ := rule1_fields p h1
  rw [hst] at hs; rw [het] at he
  simp [checkBookingConflict, hst, het, toMinutesV_str, hr, hd, hs, he, h2, h3, h4, h5]

theorem check_r6_err (today : String) (msg : String) (p : Proposal)
    (st et : String) (hst : p.start_time = .str st) (het : p.end_time = .str et)
    (h1 : (!truthy p.room_number || !truthy p.start_date
          || !truthy p.start_time || !truthy p.end_time) = false)
    (h2 : jsGe (toMinutesStr st) (toMinutesStr et) = false)
    (h3 : jslt p.start_date (.str today) = false)
    (h4 : (jslt (toMinutesStr st) (toMinutesStr "07:00")
          || jsGt (toMinutesStr et) (toMinutesStr "22:00")) = false)
    (h5 : jsGt (jsSub (toMinutesStr et) (toMinutesStr st)) (.num 240) = false) :
    checkBookingConflict today (.error msg) p =
      .ok ⟨false, [], [.dbError msg]⟩ := by
  obtain ⟨hr, hd, hs, he⟩ := rule1_fields p h1
  rw [hst] at hs; rw [het] at he
  simp [checkBookingConflict, hst, het, toMinutesV_str, hr, hd, hs, he, h2, h3, h4, h5]

theorem check_r6_rows (today : String) (rows : List BookingRec) (p : Proposal)
    (st et : String) (hst : p.start_time = .str st) (het : p.end_time = .str et)
    (h1 : (!truthy p.room_number || !truthy p.start_date
          || !truthy p.start_time || !truthy p.end_time) = false)
    (h2 : jsGe (toMinutesStr st) (toMinutesStr et) = false)
    (h3 : jslt p.start_date (.str today) = false)
    (h4 : (jslt (toMinutesStr st) (toMinutesStr "07:00")
          || jsGt (toMinutesStr et) (toMinutesStr "22:00")) = false)
    (h5 : jsGt (jsSub (toMinutesStr et) (toMinutesStr st)) (.num 240) = false) :
    checkBookingConflict today (.ok rows) p =
      conflictLoop p.room_number p.start_date (.str st) (.str et) rows ⟨true, [], []⟩ := by
  obtain ⟨hr, hd, hs, he⟩ := rule1_fields p h1
  rw [hst] at hs; rw [het] at he
  simp [checkBookingConflict, hst, het, toMinutesV_str, hr, hd, hs, he, h2, h3, h4, h5]

theorem toMinutesV_nonstr_err (v : JSVal) (ht : truthy v = true)
    (hns : ∀ s, v ≠ .str s) : toMinutesV v = .error .typeError := by
  cases v <;> first
    | exact absurd rfl (hns _)
    | simp [toMinutesV, ht]

theorem check_throw_start (today : String) (db : Except String (List BookingRec))
    (p : Proposal)
    (h1 : (!truthy p.room_number || !truthy p.start_date
          || !truthy p.start_time || !truthy p.end_time) = false)
    (hns : ∀ s, p.start_time ≠ .str s) :
    checkBookingConflict today db p = .error .typeError := by
  obtain ⟨hr, hd, hs, he⟩ := rule1_fields p h1
  have herr := toMinutesV_nonstr_err p.start_time hs hns
  simp [checkBookingConflict, hr, hd, hs, he, herr]

theorem check_throw_end (today : String) (db : Except String (List BookingRec))
    (p : Proposal) (st : String) (hst : p.start_time = .str st)
    (h1 : (!truthy p.room_number || !truthy p.start_date
          || !truthy p.start_time || !truthy p.end_time) = false)
    (hns : ∀ s, p.end_time ≠ .str s) :
    checkBookingConflict today db p = .error .typeError := by
  obtain ⟨hr, hd, hs, he⟩ := rule1_fields p h1
  rw [hst] at hs
  have herr := toMinutesV_nonstr_err p.end_time he hns
  simp [checkBookingConflict, hst, toMinutesV_str, hr, hd, hs, he, herr]

theorem check_no_throw_aux (today : String) (db : Except String (List BookingRec))
    (p : Proposal)
    (hstOk : (∃ s, p.start_time = .str s) ∨ truthy p.start_time = false)
    (hetOk : (∃ s, p.end_time = .str s) ∨ truthy p.end_time = false) :
    ∃ r, checkBookingConflict today db p = .ok r := by
  by_cases h1 : (!truthy p.room_number || !truthy p.start_date
      || !truthy p.start_time || !truthy p.end_time) = true
  · exact ⟨_, check_r1 today db p h1⟩
  · have h1' : (!truthy p.room_number || !truthy p.start_date
        || !truthy p.start_time || !truthy p.end_time) = false := by
      simpa using h1
    obtain ⟨hr, hd, hs, he⟩ := rule1_fields p h1'
    obtain ⟨a, ha⟩ : ∃ s, p.start_time = .str s := by
      rcases hstOk with hgood | hf
      · exact hgood
      · rw [hf] at hs; cases hs
    obtain ⟨b, hb⟩ : ∃ s, p.end_time = .str s := by
      rcases hetOk with hgood | hf
      · exact hgood
      · rw [hf] at he; cases he
    by_cases h2 : jsGe (toMinutesStr a) (toMinutesStr b) = true
    · exact ⟨_, check_r2 today db p a b ha hb h1' h2⟩
    have h2' : jsGe (toMinutesStr a) (toMinutesStr b) = false := by simpa using h2
    by_cases h3 : jslt p.start_date (.str today) = true
    · exact ⟨_, check_r3 today db p a b ha hb h1' h2' h3⟩
    have h3' : jslt p.start_date (.str today) = false := by simpa using h3
    by_cases h4 : (jslt (toMinutesStr a) (toMinutesStr "07:00")
        || jsGt (toMinutesStr b) (toMinutesStr "22:00")) = true
    · exact ⟨_, check_r4 today db p a b ha hb h1' h2' h3' h4⟩
    have h4' : (jslt (toMinutesStr a) (toMinutesStr "07:00")
        || jsGt (toMinutesStr b) (toMinutesStr "22:00")) = false := by simpa using h4
    by_cases h5 : jsGt (jsSub (toMinutesStr b) (toMinutesStr a)) (.num 240) = true
    · exact ⟨_, check_r5 today db p a b ha hb h1' h2' h3' h4' h5⟩
    have h5' : jsGt (jsSub (toMinutesStr b) (toMinutesStr a)) (.num 240) = false := by
      simpa using h5
    cases db with
    | error msg => exact ⟨_, check_r6_err today msg p a b ha hb h1' h2' h3' h4' h5'⟩
    | ok rows =>
      obtain ⟨r, hloop⟩ :=
        conflictLoop_ok_of_str p.room_number p.start_date a b rows ⟨true, [], []⟩
      exact ⟨r, by rw [check_r6_rows today rows p a b ha hb h1' h2' h3' h4' h5']; exact hloop⟩

theorem check_ok_no_overlap (today : String) (rows : List BookingRec) (p : Proposal)
    (st et : String) (hst : p.start_time = .str st) (het : p.end_time = .str et)
    (r : CheckResult) (h : checkBookingConflict today (.ok rows) p = .ok r)
    (hv : r.valid = true) :
    ∀ bk ∈ rows,
      timesOverlapV (.str st) (.str et) (.str bk.start_time) (.str bk.end_time) =
        .ok false := by
  by_cases h1 : (!truthy p.room_number || !truthy p.start_date
      || !truthy p.start_time || !truthy p.end_time) = true
  · rw [check_r1 today (.ok rows) p h1] at h
    injection h with h'
    rw [← h'] at hv
    simp at hv
  · have h1' : (!truthy p.room_number || !truthy p.start_date
        || !truthy p.start_time || !truthy p.end_time) = false := by
      simpa using h1
    by_cases h2 : jsGe (toMinutesStr st) (toMinutesStr et) = true
    · rw [check_r2 today (.ok rows) p st et hst het h1' h2] at h
      injection h with h'
      rw [← h'] at hv
      simp at hv
    have h2' : jsGe (toMinutesStr st) (toMinutesStr et) = false := by simpa using h2
    by_cases h3 : jslt p.start_date (.str today) = true
    · rw [check_r3 today (.ok rows) p st et hst het h1' h2' h3] at h
      injection h with h'
      rw [← h'] at hv
      simp at hv
    have h3' : jslt p.start_date (.str today) = false := by simpa using h3
    by_cases h4 : (jslt (toMinutesStr st) (toMinutesStr "07:00")
        || jsGt (toMinutesStr et) (toMinutesStr "22:00")) = true
    · rw [check_r4 today (.ok rows) p st et hst het h1' h2' h3' h4] at h
      injection h with h'
      rw [← h'] at hv
      simp at hv
    have h4' : (jslt (toMinutesStr st) (toMinutesStr "07:00")
        || jsGt (toMinutesStr et) (toMinutesStr "22:00")) = false := by simpa using h4
    by_cases h5 : jsGt (jsSub (toMinutesStr et) (toMinutesStr st)) (.num 240) = true
    · rw [check_r5 today (.ok rows) p st et hst het h1' h2' h3' h4' h5] at h
      injection h with h'
      rw [← h'] at hv
      simp at hv
    have h5' : jsGt (jsSub (toMinutesStr et) (toMinutesStr st)) (.num 240) = false := by
      simpa using h5
    rw [check_r6_rows today rows p st et hst het h1' h2' h3' h4' h5'] at h
    exact conflictLoop_no_overlap p.room_number p.start_date (.str st) (.str et)
      rows ⟨true, [], []⟩ r h hv

theorem no_overlap_of_ok_false (a b c d : String)
    (h : timesOverlapV (.str a) (.str b) (.str c) (.str d) = .ok false) :
    ¬ ∃ s1 e1 s2 e2 : Int,
        toMinutesStr a = .num s1 ∧ toMinutesStr b = .num e1 ∧
        toMinutesStr c = .num s2 ∧ toMinutesStr d = .num e2 ∧
        s1 < e2 ∧ s2 < e1 := by
  intro hov
  have htrue := (timesOverlap_core_iff a b c d).1.mpr hov
  rw [h] at htrue
  simp at htrue

theorem stepWrite_preserves (today : String) (table : List BookingRec)
    (w : BookingRec) (hinv : NoOverlapInvariant table) :
    NoOverlapInvariant (stepWrite today table w) := by
  unfold stepWrite
  cases hc : checkWithStore today table (strProposal w) with
  | error e => exact hinv
  | ok r =>
    show NoOverlapInvariant (if r.valid = true then w :: table else table)
    by_cases hv : r.valid = true
    · rw [if_pos hv]
      refine List.Pairwise.cons ?_ hinv
      intro b hb
      intro hAw hAb hroom hdate hov
      have hbq : b ∈ queryNonRejected table (JSVal.str w.room_number)
          (JSVal.str w.start_date) := by
        unfold queryNonRejected
        rw [List.mem_filter]
        refine ⟨hb, ?_⟩
        have e1 : jeqParam (JSVal.str w.room_number) b.room_number = true := by
          simp [jeqParam, hroom]
        have e2 : jeqParam (JSVal.str w.start_date) b.start_date = true := by
          simp [jeqParam, hdate]
        have e3 : (b.status == "Rejected") = false := by
          rcases hAb with hstat | hstat <;> rw [hstat] <;> decide
        rw [e1, e2, e3]
        rfl
      have hno := check_ok_no_overlap today
        (queryNonRejected table (strProposal w).room_number (strProposal w).start_date)
        (strProposal w) w.start_time w.end_time rfl rfl r hc hv b hbq
      exact no_overlap_of_ok_false w.start_time w.end_time b.start_time b.end_time hno hov
    · rw [if_neg hv]
      exact hinv

theorem applyWrites_preserves (today : String) (ws : List BookingRec) :
    ∀ table : List BookingRec, NoOverlapInvariant table →
      NoOverlapInvariant (applyWrites today table ws) := by
  induction ws with
  | nil => intro table h; exact h
  | cons w rest ih =>
    intro table h
    exact ih (stepWrite today table w) (stepWrite_preserves today table w h)

theorem schedGet_schedSet (d : String) (l : List BookingRec) :
    ∀ sch : List (String × List BookingRec), schedGet (schedSet sch d l) d = some l := by
  intro sch
  induction sch with
  | nil => simp [schedSet, schedGet]
  | cons kv rest ih =>
    by_cases hk : (kv.1 == d) = true
    · simp [schedSet, schedGet, hk]
    · have hk' : (kv.1 == d) = false := by simpa using hk
      simp [schedSet, schedGet, hk', ih]

theorem applyInsert_bookings_has (s : ClientState) (r : BookingRec) :
    (applyInsertEvent s r).bookings.any
      (fun b => b.booking_id == r.booking_id) = true := by
  unfold applyInsertEvent
  by_cases h : s.bookings.any (fun b => b.booking_id == r.booking_id) = true <;>
    simp [h]

theorem applyInsert_sched_has (s : ClientState) (r : BookingRec)
    (hc : (!(r.start_date == "") && !(r.status == "Rejected")) = true) :
    ((schedGet (applyInsertEvent s r).schedule r.start_date).getD []).any
      (fun b => b.booking_id == r.booking_id) = true := by
  unfold applyInsertEvent
  by_cases h0 : ((schedGet s.schedule r.start_date).getD []).any
      (fun b => b.booking_id == r.booking_id) = true
  · simp [hc, h0]
  · simp [hc, h0, schedGet_schedSet]

theorem applyInsert_idem_aux (s : ClientState) (r : BookingRec) :
    applyInsertEvent (applyInsertEvent s r) r = applyInsertEvent s r := by
  have hb2 := applyInsert_bookings_has s r
  by_cases hc : (!(r.start_date == "") && !(r.status == "Rejected")) = true
  · have hs2 := applyInsert_sched_has s r hc
    conv_lhs => rw [applyInsertEvent]
    simp [hb2, hc, hs2]
  · have hc' : (!(r.start_date == "") && !(r.status == "Rejected")) = false := by
      simpa using hc
    conv_lhs => rw [applyInsertEvent]
    simp [hb2, hc']

/-! ### Claims -/

/-- C1: for any sequence of proposed bookings with a fixed `(roomId, date)`,
each first validated by `checkBookingConflict` against the current booking
set and inserted only when the result is valid, the resulting booking set
contains no two bookings with status in `{Pending, Approved}` whose
`[startTime, endTime)` minute intervals overlap (touching endpoints do not
count). -/
theorem claim_c1_no_overlap_invariant (today R D : String)
    (ws table : List BookingRec)
    (hfix : ∀ w ∈ ws, w.room_number = R ∧ w.start_date = D)
    (hinv : NoOverlapInvariant table) :
    NoOverlapInvariant (applyWrites today table ws) :=
  applyWrites_preserves today ws table hinv

theorem claim_c1_witness :
    NoOverlapInvariant (applyWrites "2026-01-01" []
      [⟨"BK-1", "CSIS-101", "2026-03-05", "09:00", "11:00", "Approved", "teacher"⟩,
       ⟨"BK-2", "CSIS-101", "2026-03-05", "10:00", "12:00", "Pending", "student"⟩]) :=
  claim_c1_no_overlap_invariant "2026-01-01" "CSIS-101" "2026-03-05" _ []
    (by decide) List.Pairwise.nil

/-- C2: `timesOverlap(startA, endA, startB, endB)` returns true iff every
bound parses to a minute count and `startA < endB` and `startB < endA` hold
strictly on the parsed minutes; whenever a bound is unparseable (`null`) it
returns false. -/
theorem claim_c2_times_overlap (startA endA startB endB : String) :
    (timesOverlapV (.str startA) (.str endA) (.str startB) (.str endB) = .ok true ↔
      ∃ s1 e1 s2 e2 : Int,
        toMinutesStr startA = .num s1 ∧ toMinutesStr endA = .num e1 ∧
        toMinutesStr startB = .num s2 ∧ toMinutesStr endB = .num e2 ∧
        s1 < e2 ∧ s2 < e1) ∧
    ((toMinutesStr startA = .null ∨ toMinutesStr endA = .null ∨
      toMinutesStr startB = .null ∨ toMinutesStr endB = .null) →
      timesOverlapV (.str startA) (.str endA) (.str startB) (.str endB) =
        .ok false) :=
  timesOverlap_core_iff startA endA startB endB

theorem claim_c2_witness :
    timesOverlapV (.str "") (.str "10:00") (.str "10:00") (.str "11:00") = .ok false ∧
    timesOverlapV (.str "09:00") (.str "11:00") (.str "10:00") (.str "12:00") = .ok true :=
  ⟨(claim_c2_times_overlap "" "10:00" "10:00" "11:00").2 (Or.inl (by decide)),
   (claim_c2_times_overlap "09:00" "11:00" "10:00" "12:00").1.mpr
     ⟨540, 660, 600, 720, by decide, by decide, by decide, by decide,
      by decide, by decide⟩⟩

/-- C3: the conflict query excludes `Rejected` rows, so an existing
`Rejected` booking — in particular one occupying the exact same slot as the
proposal — never appears in the returned conflicts list and never changes
the validation result. -/
theorem claim_c3_rejected_excluded (today : String) (p : Proposal)
    (table : List BookingRec) (bk : BookingRec)
    (hrej : bk.status = "Rejected") :
    checkWithStore today (bk :: table) p = checkWithStore today table p := by
  unfold checkWithStore queryNonRejected
  simp [hrej]

theorem claim_c3_witness :
    checkWithStore "2026-01-01"
        [⟨"BK-R", "CSIS-101", "2026-03-05", "09:00", "11:00", "Rejected", "student"⟩]
        ⟨.str "CSIS-101", .str "2026-03-05", .str "09:00", .str "11:00"⟩ =
      checkWithStore "2026-01-01" []
        ⟨.str "CSIS-101", .str "2026-03-05", .str "09:00", .str "11:00"⟩ :=
  claim_c3_rejected_excluded "2026-01-01" _ [] _ rfl

/-- C4: `checkBookingConflict` evaluates its rules in the fixed order
completeness, time ordering, no-past-date, operating hours, max duration,
then the store query; it returns at the first failing rule with
`valid = false`, exactly one reason and an empty conflicts list, and the
store response is consulted only when all five static rules pass (for a
failed static rule the result is the same for every `db`). -/
theorem claim_c4_rule_order (today st et : String) (p : Proposal)
    (hst : p.start_time = .str st) (het : p.end_time = .str et) :
    ((!truthy p.room_number || !truthy p.start_date
        || !truthy p.start_time || !truthy p.end_time) = true →
      ∀ db, checkBookingConflict today db p = .ok ⟨false, [], [.missingFields]⟩) ∧
    ((!truthy p.room_number || !truthy p.start_date
        || !truthy p.start_time || !truthy p.end_time) = false →
      jsGe (toMinutesStr st) (toMinutesStr et) = true →
      ∀ db, checkBookingConflict today db p =
        .ok ⟨false, [], [.invalidTimeRange (.str st) (.str et)]⟩) ∧
    ((!truthy p.room_number || !truthy p.start_date
        || !truthy p.start_time || !truthy p.end_time) = false →
      jsGe (toMinutesStr st) (toMinutesStr et) = false →
      jslt p.start_date (.str today) = true →
      ∀ db, checkBookingConflict today db p =
        .ok ⟨false, [], [.pastDate p.start_date today]⟩) ∧
    ((!truthy p.room_number || !truthy p.start_date
        || !truthy p.start_time || !truthy p.end_time) = false →
      jsGe (toMinutesStr st) (toMinutesStr et) = false →
      jslt p.start_date (.str today) = false →
      (jslt (toMinutesStr st) (toMinutesStr "07:00")
        || jsGt (toMinutesStr et) (toMinutesStr "22:00")) = true →
      ∀ db, checkBookingConflict today db p =
        .ok ⟨false, [], [.outsideOperatingHours (.str st) (.str et)]⟩) ∧
    ((!truthy p.room_number || !truthy p.start_date
        || !truthy p.start_time || !truthy p.end_time) = false →
      jsGe (toMinutesStr st) (toMinutesStr et) = false →
      jslt p.start_date (.str today) = false →
      (jslt (toMinutesStr st) (toMinutesStr "07:00")
        || jsGt (toMinutesStr et) (toMinutesStr "22:00")) = false →
      jsGt (jsSub (toMinutesStr et) (toMinutesStr st)) (.num 240) = true →
      ∀ db, checkBookingConflict today db p =
        .ok ⟨false, [], [.tooLong (jsSub (toMinutesStr et) (toMinutesStr st))]⟩) ∧
    ((!truthy p.room_number || !truthy p.start_date
        || !truthy p.start_time || !truthy p.end_time) = false →
      jsGe (toMinutesStr st) (toMinutesStr et) = false →
      jslt p.start_date (.str today) = false →
      (jslt (toMinutesStr st) (toMinutesStr "07:00")
        || jsGt (toMinutesStr et) (toMinutesStr "22:00")) = false →
      jsGt (jsSub (toMinutesStr et) (toMinutesStr st)) (.num 240) = false →
      (∀ msg, checkBookingConflict today (.error msg) p =
        .ok ⟨false, [], [.dbError msg]⟩) ∧
      (∀ rows, checkBookingConflict today (.ok rows) p =
        conflictLoop p.room_number p.start_date (.str st) (.str et) rows
          ⟨true, [], []⟩)) := by
  refine ⟨?_, ?_, ?_, ?_, ?_, ?_⟩
  · intro h1 db
    exact check_r1 today db p h1
  · intro h1 h2 db
    exact check_r2 today db p st et hst het h1 h2
  · intro h1 h2 h3 db
    exact check_r3 today db p st et hst het h1 h2 h3
  · intro h1 h2 h3 h4 db
    exact check_r4 today db p st et hst het h1 h2 h3 h4
  · intro h1 h2 h3 h4 h5 db
    exact check_r5 today db p st et hst het h1 h2 h3 h4 h5
  · intro h1 h2 h3 h4 h5
    exact ⟨fun msg => check_r6_err today msg p st et hst het h1 h2 h3 h4 h5,
           fun rows => check_r6_rows today rows p st et hst het h1 h2 h3 h4 h5⟩

theorem claim_c4_witness :
    checkBookingConflict "2026-01-01" (.ok [])
        ⟨.str "CSIS-101", .str "2026-03-05", .str "11:00", .str "09:00"⟩ =
      .ok ⟨false, [], [.invalidTimeRange (.str "11:00") (.str "09:00")]⟩ :=
  ((claim_c4_rule_order "2026-01-01" "11:00" "09:00"
      ⟨.str "CSIS-101", .str "2026-03-05", .str "11:00", .str "09:00"⟩
      rfl rfl).2.1 (by decide) (by decide)) (.ok [])

/-- C5: when the five static rules pass and the store query fails,
`checkBookingConflict` fails closed: `valid = false` with the
database-failure reason, and no result with `valid = true` is possible. -/
theorem claim_c5_fail_closed (today msg st et : String) (p : Proposal)
    (hst : p.start_time = .str st) (het : p.end_time = .str et)
    (h1 : (!truthy p.room_number || !truthy p.start_date
          || !truthy p.start_time || !truthy p.end_time) = false)
    (h2 : jsGe (toMinutesStr st) (toMinutesStr et) = false)
    (h3 : jslt p.start_date (.str today) = false)
    (h4 : (jslt (toMinutesStr st) (toMinutesStr "07:00")
          || jsGt (toMinutesStr et) (toMinutesStr "22:00")) = false)
    (h5 : jsGt (jsSub (toMinutesStr et) (toMinutesStr st)) (.num 240) = false) :
    checkBookingConflict today (.error msg) p =
      .ok ⟨false, [], [.dbError msg]⟩ ∧
    ∀ r, checkBookingConflict today (.error msg) p = .ok r →
      r.valid = false := by
  refine ⟨check_r6_err today msg p st et hst het h1 h2 h3 h4 h5, ?_⟩
  intro r h
  rw [check_r6_err today msg p st et hst het h1 h2 h3 h4 h5] at h
  injection h with h'
  rw [← h']

theorem claim_c5_witness :
    checkBookingConflict "2026-01-01" (.error "boom")
        ⟨.str "CSIS-101", .str "2026-03-05", .str "09:00", .str "11:00"⟩ =
      .ok ⟨false, [], [.dbError "boom"]⟩ :=
  (claim_c5_fail_closed "2026-01-01" "boom" "09:00" "11:00"
    ⟨.str "CSIS-101", .str "2026-03-05", .str "09:00", .str "11:00"⟩
    rfl rfl (by decide) (by decide) (by decide) (by decide) (by decide)).1

/-- C6 counterexample: the claim says `toMinutes` returns null for every
malformed input, but `toMinutes("abc")` evaluates `Number("abc") * 60 +
Number(undefined)`, which is NaN — a sentinel distinct from null. -/
theorem claim_c6_counterexample :
    toMinutesV (.str "abc") = .ok .nan ∧ JSVal.nan ≠ JSVal.null := by decide

/-- C6 (amended): `toMinutes` never throws on string input; it returns an
integer minute count for well-formed `"HH:MM"` input, returns null exactly
for the empty (falsy) string, and for any other malformed string returns a
non-null sentinel (NaN or a number) rather than null. -/
theorem claim_c6_amended :
    (∀ s : String,
      toMinutesV (.str s) = .ok (toMinutesStr s) ∧
      (toMinutesStr s = .null ↔ s = "")) ∧
    (∀ h : Nat, h < 24 → ∀ m : Nat, m < 60 →
      toMinutesStr (fmtHHMM h m) = .num (h * 60 + m)) := by
  constructor
  · intro s
    refine ⟨toMinutesV_str s, ?_, ?_⟩
    · intro hnull
      unfold toMinutesStr at hnull
      by_cases h : s.data.isEmpty
      · apply String.ext
        cases hd : s.data with
        | nil => rfl
        | cons a t => rw [hd] at h; simp [List.isEmpty] at h
      · rw [if_neg h] at hnull
        exact absurd hnull (toMinutesCore_ne_null s.data)
    · intro he
      subst he
      decide
  · set_option maxRecDepth 10000 in decide

theorem claim_c6_witness :
    toMinutesStr (fmtHHMM 9 30) = .num (9 * 60 + 30) ∧ toMinutesStr "" = .null :=
  ⟨claim_c6_amended.2 9 (by decide) 30 (by decide),
   (claim_c6_amended.1 "").2.mpr rfl⟩

/-- C7 counterexample: the claim says malformed proposal values never make
the validator throw, but a truthy non-string `start_time` (here the JSON
number 930) reaches `timeStr.split(':')` and raises a `TypeError`. -/
theorem claim_c7_counterexample :
    checkBookingConflict "2026-01-01" (.ok [])
      ⟨.str "CSIS-101", .str "2026-03-05", .num 930, .str "11:00"⟩ =
      .error .typeError := by decide

/-- C7 (amended): `checkBookingConflict` never throws provided each time
field is a string or falsy — every such proposal yields a normal result —
but when all four fields are truthy and `start_time` (or `end_time`) is a
non-string, the `.split` call raises a `TypeError`, which the route's
`catch` surfaces as a server error instead of a validation failure. -/
theorem claim_c7_amended (today : String) (db : Except String (List BookingRec)) :
    (∀ p : Proposal,
      ((∃ s, p.start_time = .str s) ∨ truthy p.start_time = false) →
      ((∃ s, p.end_time = .str s) ∨ truthy p.end_time = false) →
      ∃ r, checkBookingConflict today db p = .ok r) ∧
    (∀ p : Proposal,
      (!truthy p.room_number || !truthy p.start_date
        || !truthy p.start_time || !truthy p.end_time) = false →
      (∀ s, p.start_time ≠ .str s) →
      checkBookingConflict today db p = .error .typeError) ∧
    (∀ (p : Proposal) (st : String),
      p.start_time = .str st →
      (!truthy p.room_number || !truthy p.start_date
        || !truthy p.start_time || !truthy p.end_time) = false →
      (∀ s, p.end_time ≠ .str s) →
      checkBookingConflict today db p = .error .typeError) :=
  ⟨fun p hstOk hetOk => check_no_throw_aux today db p hstOk hetOk,
   fun p h1 hns => check_throw_start today db p h1 hns,
   fun p st hst h1 hns => check_throw_end today db p st hst h1 hns⟩

theorem claim_c7_witness :
    ∃ r, checkBookingConflict "2026-01-01" (.ok [])
      ⟨.str "CSIS-101", .str "2026-03-05", .str "ab:cd", .num 0⟩ = .ok r :=
  (claim_c7_amended "2026-01-01" (.ok [])).1
    ⟨.str "CSIS-101", .str "2026-03-05", .str "ab:cd", .num 0⟩
    (Or.inl ⟨"ab:cd", rfl⟩) (Or.inr (by decide))

/-- C8: applying the same `INSERT` change event twice to the client sync
reducer yields the same bookings list and schedule map as applying it once
(dedup by `booking_id` in both the list and the event's date bucket), and an
`INSERT` whose record has status `Rejected` never adds a schedule entry. -/
theorem claim_c8_insert_idempotent (s : ClientState) (r : BookingRec) :
    applyInsertEvent (applyInsertEvent s r) r = applyInsertEvent s r ∧
    (r.status = "Rejected" → (applyInsertEvent s r).schedule = s.schedule) := by
  refine ⟨applyInsert_idem_aux s r, ?_⟩
  intro h
  unfold applyInsertEvent
  simp [h]

theorem claim_c8_witness :
    (applyInsertEvent (⟨[], []⟩ : ClientState)
        ⟨"BK-R", "CSIS-101", "2026-03-05", "09:00", "11:00", "Rejected", "student"⟩).schedule
      = ([] : List (String × List BookingRec)) :=
  (claim_c8_insert_idempotent ⟨[], []⟩
    ⟨"BK-R", "CSIS-101", "2026-03-05", "09:00", "11:00", "Rejected", "student"⟩).2 rfl

/-- C9 counterexample: the claim says a failed heartbeat write removes the
channel from the registry, but the heartbeat's `catch` only clears the
interval — with a failing write on channel 0 the registry still contains
channel 0 afterwards. -/
theorem claim_c9_counterexample :
    (heartbeatTick (fun _ => false) 0 true [0]).2 = [0] ∧
    (heartbeatTick (fun _ => false) 0 true [0]).2 ≠ [] := by decide

/-- C9 (amended): a failed heartbeat write only clears that channel's
heartbeat interval and leaves the registry unchanged; channels are removed
from the registry by the connection-close handler or by a failed broadcast
write — after `broadcastToClients`, every remaining registered channel is
one whose write succeeded. -/
theorem claim_c9_amended (writeOk : Nat → Bool) (c : Nat) (clients : List Nat) :
    (heartbeatTick writeOk c true clients).2 = clients ∧
    (writeOk c = false → (heartbeatTick writeOk c true clients).1 = false) ∧
    (∀ x ∈ broadcastToClients writeOk clients, writeOk x = true) := by
  refine ⟨?_, ?_, ?_⟩
  · unfold heartbeatTick
    by_cases h : writeOk c = true <;> simp [h]
  · intro h
    unfold heartbeatTick
    simp [h]
  · intro x hx
    unfold broadcastToClients at hx
    rw [List.mem_filter] at hx
    rcases hx with ⟨hmem, hdead⟩
    by_contra hw
    have hw' : writeOk x = false := by simpa using hw
    simp [List.elem_iff] at hdead
    rcases hdead with hno | hok
    · exact hno hmem
    · rw [hw'] at hok
      cases hok

theorem claim_c9_witness :
    (heartbeatTick (fun _ => false) 7 true [7, 8]).2 = [7, 8] ∧
    (heartbeatTick (fun _ => false) 7 true [7, 8]).1 = false :=
  ⟨(claim_c9_amended (fun _ => false) 7 [7, 8]).1,
   (claim_c9_amended (fun _ => false) 7 [7, 8]).2.1 rfl⟩

/-- C10: every normal result of `checkBookingConflict` satisfies
`valid = true` iff `reasons` is empty, and a valid result also has an empty
conflicts list. -/
theorem claim_c10_valid_iff (today : String) (db : Except String (List BookingRec))
    (p : Proposal) (r : CheckResult)
    (h : checkBookingConflict today db p = .ok r) :
    (r.valid = true ↔ r.reasons = []) ∧ (r.valid = true → r.conflicts = []) := by
  by_cases h1 : (!truthy p.room_number || !truthy p.start_date
      || !truthy p.start_time || !truthy p.end_time) = true
  · rw [check_r1 today db p h1] at h
    injection h with h'
    rw [← h']
    simp
  · have h1' : (!truthy p.room_number || !truthy p.start_date
        || !truthy p.start_time || !truthy p.end_time) = false := by simpa using h1
    by_cases hss : ∃ s, p.start_time = .str s
    · obtain ⟨st, hst⟩ := hss
      by_cases hes : ∃ s, p.end_time = .str s
      · obtain ⟨et, het⟩ := hes
        by_cases h2 : jsGe (toMinutesStr st) (toMinutesStr et) = true
        · rw [check_r2 today db p st et hst het h1' h2] at h
          injection h with h'
          rw [← h']
          simp
        · have h2' : jsGe (toMinutesStr st) (toMinutesStr et) = false := by simpa using h2
          by_cases h3 : jslt p.start_date (.str today) = true
          · rw [check_r3 today db p st et hst het h1' h2' h3] at h
            injection h with h'
            rw [← h']
            simp
          · have h3' : jslt p.start_date (.str today) = false := by simpa using h3
            by_cases h4 : (jslt (toMinutesStr st) (toMinutesStr "07:00")
                || jsGt (toMinutesStr et) (toMinutesStr "22:00")) = true
            · rw [check_r4 today db p st et hst het h1' h2' h3' h4] at h
              injection h with h'
              rw [← h']
              simp
            · have h4' : (jslt (toMinutesStr st) (toMinutesStr "07:00")
                  || jsGt (toMinutesStr et) (toMinutesStr "22:00")) = false := by
                simpa using h4
              by_cases h5 : jsGt (jsSub (toMinutesStr et) (toMinutesStr st))
                  (.num 240) = true
              · rw [check_r5 today db p st et hst het h1' h2' h3' h4' h5] at h
                injection h with h'
                rw [← h']
                simp
              · have h5' : jsGt (jsSub (toMinutesStr et) (toMinutesStr st))
                    (.num 240) = false := by simpa using h5
                cases db with
                | error msg =>
                  rw [check_r6_err today msg p st et hst het h1' h2' h3' h4' h5'] at h
                  injection h with h'
                  rw [← h']
                  simp
                | ok rows =>
                  rw [check_r6_rows today rows p st et hst het h1' h2' h3' h4' h5'] at h
                  exact conflictLoop_props p.room_number p.start_date (.str st)
                    (.str et) rows ⟨true, [], []⟩ r h (by simp) (by simp)
      · push_neg at hes
        rw [check_throw_end today db p st hst h1' hes] at h
        cases h
    · push_neg at hss
      rw [check_throw_start today db p h1' hss] at h
      cases h

theorem claim_c10_witness :
    ((true : Bool) = true ↔ ([] : List Reason) = []) ∧
      ((true : Bool) = true → ([] : List ConflictEntry) = []) :=
  claim_c10_valid_iff "2026-01-01" (.ok [])
    ⟨.str "CSIS-101", .str "2026-03-05", .str "09:00", .str "11:00"⟩
    ⟨true, [], []⟩ (by decide)
